import Mathlib

/-!
Verification of the authorization and data-consistency contract of a small
blog backend (Express routes + zod validation + a Prisma-backed relational
store).  The definitions below are a shallow embedding of the route handlers
in `src/index.ts` (register/login), `src/routes/posts.ts`,
`src/routes/comments.ts`, the zod schemas in `src/types/types.ts`, and the
authorization middleware in `src/middleware.ts`.  External collaborators
(bcrypt, jsonwebtoken, the Prisma client) are modelled as explicit
capability interfaces; request bodies are modelled with `Option` fields so
that a missing JSON key is representable.
-/

/-- JS truthiness of an optional string value: `undefined` and `""` are
falsy, every non-empty string is truthy. -/
def truthy : Option String → Bool
  | none => false
  | some s => s != ""

/-- Boolean test `lo ≤ s.length`, mirroring zod's `.min(lo)` on a string. -/
def minLen (lo : Nat) (s : String) : Bool := decide (lo ≤ s.length)

/-- Boolean test `s.length ≤ hi`, mirroring zod's `.max(hi)` on a string. -/
def maxLen (hi : Nat) (s : String) : Bool := decide (s.length ≤ hi)

/-- Request body for `POST /register`; each field may be absent. -/
structure RegisterBody where
  username : Option String
  email : Option String
  password : Option String
  deriving DecidableEq, Repr

/-- Parsed data produced by a successful `UserSchema.safeParse`. -/
structure RegisterData where
  username : String
  email : String
  password : String
  deriving DecidableEq, Repr

/-- `UserSchema.safeParse` from `types.ts`: username is a required string of
3–20 chars, email a required string of ≥ 1 char, password a required string
of 8–30 chars.  `none` models `success: false`. -/
def UserSchema.safeParse (b : RegisterBody) : Option RegisterData :=
  match b.username, b.email, b.password with
  | some u, some e, some p =>
    if minLen 3 u && maxLen 20 u && minLen 1 e && minLen 8 p && maxLen 30 p then
      some { username := u, email := e, password := p }
    else none
  | _, _, _ => none

/-- Request body for `POST /login`. -/
structure SigninBody where
  username : Option String
  email : Option String
  password : Option String
  deriving DecidableEq, Repr

/-- Parsed data produced by a successful `SigninSchem.safeParse`: username
and email remain optional, password is required. -/
structure SigninData where
  username : Option String
  email : Option String
  password : String
  deriving DecidableEq, Repr

/-- `SigninSchem.safeParse` from `types.ts`: username optional (3–20 chars
when present), email optional (≥ 1 char when present), password required
(8–30 chars). -/
def SigninSchem.safeParse (b : SigninBody) : Option SigninData :=
  match b.password with
  | none => none
  | some p =>
    let uOk := match b.username with
      | none => true
      | some u => minLen 3 u && maxLen 20 u
    let eOk := match b.email with
      | none => true
      | some e => minLen 1 e
    if uOk && eOk && minLen 8 p && maxLen 30 p then
      some { username := b.username, email := b.email, password := p }
    else none

/-- Request body for `POST /posts`. -/
structure CreatePostBody where
  title : Option String
  content : Option String
  deriving DecidableEq, Repr

/-- Parsed data of a successful `createPostSchema.safeParse`. -/
structure CreatePostData where
  title : String
  content : String
  deriving DecidableEq, Repr

/-- `createPostSchema.safeParse` from `types.ts`: title required 3–20 chars,
content required ≥ 3 chars. -/
def createPostSchema.safeParse (b : CreatePostBody) : Option CreatePostData :=
  match b.title, b.content with
  | some t, some c =>
    if minLen 3 t && maxLen 20 t && minLen 3 c then
      some { title := t, content := c }
    else none
  | _, _ => none

/-- Request body for `PUT /posts/:postId`; the parsed data has the same
shape (both fields stay optional). -/
structure UpdatePostBody where
  title : Option String
  content : Option String
  deriving DecidableEq, Repr

/-- `updatePostSchema.safeParse` from `types.ts`: title optional (3–20 chars
when present), content optional (≥ 3 chars when present), followed by
`.refine(data => data.title || data.content)` — the refinement uses JS
truthiness, so it demands at least one truthy updatable field. -/
def updatePostSchema.safeParse (b : UpdatePostBody) : Option UpdatePostBody :=
  let titleOk := match b.title with
    | none => true
    | some t => minLen 3 t && maxLen 20 t
  let contentOk := match b.content with
    | none => true
    | some c => minLen 3 c
  if titleOk && contentOk && (truthy b.title || truthy b.content) then
    some b
  else none

/-- Request body for comment create/update routes.  The create route also
reads `req.body.post_id` directly (outside the zod schema). -/
structure CommentBody where
  content : Option String
  post_id : Option String
  deriving DecidableEq, Repr

/-- `CommentSchema.safeParse` from `types.ts`: content required, 3–500
chars.  The parsed data is just the content string. -/
def CommentSchema.safeParse (b : CommentBody) : Option String :=
  match b.content with
  | some c => if minLen 3 c && maxLen 500 c then some c else none
  | none => none

/-- A stored User row (`prisma/schema`): `password` holds the bcrypt hash. -/
structure User where
  id : String
  username : String
  email : String
  password : String
  created_at : Nat
  deriving DecidableEq, Repr

/-- A stored Post row.  `author_id` is `TEXT NOT NULL` in the migration. -/
structure Post where
  id : String
  title : String
  content : String
  author_id : String
  created_at : Nat
  updated_at : Nat
  deriving DecidableEq, Repr

/-- A stored Comment row. -/
structure Comment where
  id : String
  content : String
  post_id : String
  author_id : String
  created_at : Nat
  updated_at : Nat
  deriving DecidableEq, Repr

/-- The relational store (the Prisma `Client`'s visible state). -/
structure Store where
  users : List User
  posts : List Post
  comments : List Comment
  deriving DecidableEq, Repr

/-- The empty store. -/
def stEmpty : Store := { users := [], posts := [], comments := [] }

/-- `Client.user.findUnique({ where: { username } })`. -/
def Store.userFindByUsername (st : Store) (uname : String) : Option User :=
  st.users.find? (fun u => u.username == uname)

/-- `Client.user.findUnique({ where: { email } })`. -/
def Store.userFindByEmail (st : Store) (em : String) : Option User :=
  st.users.find? (fun u => u.email == em)

/-- `Client.user.create`: append the new row. -/
def Store.userCreate (st : Store) (u : User) : Store :=
  { st with users := st.users ++ [u] }

/-- `Client.post.findUnique({ where: { id } })`. -/
def Store.postFindUnique (st : Store) (id : String) : Option Post :=
  st.posts.find? (fun p => p.id == id)

/-- `Client.post.create`: append the new row. -/
def Store.postCreate (st : Store) (p : Post) : Store :=
  { st with posts := st.posts ++ [p] }

/-- Partial update record built by the update-post handler
(`updateData: Record<string, unknown>`): a field is written only when it was
present in the validated payload. -/
structure PostUpdateData where
  title : Option String := none
  content : Option String := none
  deriving DecidableEq, Repr

/-- Apply a partial update to a post row: a supplied field replaces the old
value, an absent field keeps it.  (The store's `@updatedAt` timestamp is
wall-clock managed and outside this model.) -/
def applyPostUpdate (u : PostUpdateData) (p : Post) : Post :=
  { p with
    title := u.title.getD p.title,
    content := u.content.getD p.content }

/-- `Client.post.update({ where: { id }, data })`. -/
def Store.postUpdate (st : Store) (id : String) (u : PostUpdateData) : Store :=
  { st with posts := st.posts.map (fun p => if p.id == id then applyPostUpdate u p else p) }

/-- `Client.post.delete({ where: { id } })`. -/
def Store.postDelete (st : Store) (id : String) : Store :=
  { st with posts := st.posts.filter (fun p => p.id != id) }

/-- `Client.comment.findUnique({ where: { id } })`. -/
def Store.commentFindUnique (st : Store) (id : String) : Option Comment :=
  st.comments.find? (fun c => c.id == id)

/-- `Client.comment.create`: append the new row. -/
def Store.commentCreate (st : Store) (c : Comment) : Store :=
  { st with comments := st.comments ++ [c] }

/-- `Client.comment.update({ where: { id }, data: { content } })`. -/
def Store.commentUpdate (st : Store) (id : String) (content : String) : Store :=
  { st with comments :=
      st.comments.map (fun c => if c.id == id then { c with content := content } else c) }

/-- `Client.comment.delete({ where: { id } })`. -/
def Store.commentDelete (st : Store) (id : String) : Store :=
  { st with comments := st.comments.filter (fun c => c.id != id) }

/-- Insertion step of the store's `orderBy: { created_at: "desc" }`. -/
def insertByDesc (key : α → Nat) (x : α) : List α → List α
  | [] => [x]
  | y :: ys => if key y ≤ key x then x :: y :: ys else y :: insertByDesc key x ys

/-- Model of the relational engine's `ORDER BY key DESC`: insertion sort on
the key, descending. -/
def sortByDesc (key : α → Nat) : List α → List α
  | [] => []
  | x :: xs => insertByDesc key x (sortByDesc key xs)

/-- `Client.post.findMany({ orderBy: { created_at: "desc" } })`. -/
def Store.postFindManyDesc (st : Store) : List Post :=
  sortByDesc Post.created_at st.posts

/-- `Client.comment.findMany({ where: { post_id }, orderBy: { created_at:
"desc" } })`. -/
def Store.commentFindByPostDesc (st : Store) (pid : String) : List Comment :=
  sortByDesc Comment.created_at (st.comments.filter (fun c => c.post_id == pid))

/-- `Client.comment.findMany({ orderBy: { created_at: "desc" } })` (global,
no filter; the author field selection is outside the row model). -/
def Store.commentFindManyDesc (st : Store) : List Comment :=
  sortByDesc Comment.created_at st.comments

/-- Model of the external bcrypt capability: a one-way, injective encoding of
the password (the random salt is abstracted to a fixed one, which suffices
for the deterministic verification contract `compare p (hash p) = true`). -/
def bhash (password : String) : String := "bcrypt$" ++ password

/-- Model of `bcrypt.compare(password, hash)`: true iff `hash` is the hash
of `password`. -/
def bcompare (password hash : String) : Bool := hash == bhash password

/-- Payload recovered from a verified JWT: `{ userId }`. -/
structure JwtPayload where
  userId : String
  deriving DecidableEq, Repr

/-- Abstract model of the bearer tokens seen by the middleware.  `missing`
is the empty string used when the authorization header is absent
(`req.headers["authorization"] ?? ""`); `malformed` is any string that is
not a well-formed JWT; `signed secret userId` is a well-formed JWT produced
by `jwt.sign({ userId }, secret)`. -/
inductive Token
  | missing
  | malformed (raw : String)
  | signed (secret : String) (userId : String)
  deriving DecidableEq, Repr

/-- Model of `jwt.sign({ userId: user.id }, JWT_SECRET, ...)` as the string
serialization of a signed token; it is never the empty string. -/
def jwtSign (secret userId : String) : String :=
  "jwt." ++ secret ++ "." ++ userId

/-- Model of the external `jwt.verify(token, secret)` capability: it either
THROWS (modelled by `Except.error` carrying the library's error message) or
returns the decoded payload.  It never returns a falsy value on failure —
failure is always an exception. -/
def jwtVerify (secret : String) : Token → Except String JwtPayload
  | Token.missing => Except.error "jwt must be provided"
  | Token.malformed _ => Except.error "jwt malformed"
  | Token.signed s uid =>
    if s == secret then Except.ok { userId := uid } else Except.error "invalid signature"

/-- JS truthiness of a decoded JWT payload: payload objects are always
truthy. -/
def payloadTruthy (_ : JwtPayload) : Bool := true

/-- Outcome of running an Express middleware on a request: it called
`next()` (with `req.userId` set), it wrote a response itself, or it let an
exception escape (which Express forwards to its default error handler). -/
inductive MwOutcome
  | next (userId : String)
  | responded (status : Nat) (message : String)
  | uncaughtError (e : String)
  deriving DecidableEq, Repr

/-- The authorization middleware from `src/middleware.ts`:

    const token = req.headers["authorization"] ?? "";
    const decoded = jwt.verify(token, JWT_SECRET);
    if (decoded) { req.userId = decoded.userId; next(); }
    else { res.status(404).json({ message: "Not Authorized" }); }

There is no try/catch: when `jwt.verify` throws, the exception escapes the
middleware (first match arm).  The 404 branch is only reachable from a
successful verify returning a falsy payload. -/
def middleware (secret : String) (authHeader : Option Token) : MwOutcome :=
  let token := authHeader.getD Token.missing
  match jwtVerify secret token with
  | Except.error e => MwOutcome.uncaughtError e
  | Except.ok decoded =>
    if payloadTruthy decoded then MwOutcome.next decoded.userId
    else MwOutcome.responded 404 "Not Authorized"

/-- An error thrown by a resource-store call (cause deliberately opaque to
the handlers: they only observe that the awaited call threw). -/
inductive StoreErr
  | uniqueViolation
  | connectionLost
  | otherFailure
  deriving DecidableEq, Repr

/-- Trace element: one call made to the resource store while handling a
request. -/
inductive StoreCall
  | userCreate
  | userFindByUsername (uname : String)
  | userFindByEmail (em : String)
  | postCreate
  | postFindMany
  | postFindUnique (id : String)
  | postUpdate (id : String)
  | postDelete (id : String)
  | commentCreate
  | commentFindMany
  | commentFindManyByPost (pid : String)
  | commentFindUnique (id : String)
  | commentUpdate (id : String)
  | commentDelete (id : String)
  deriving DecidableEq, Repr

/-- The observable outcome of one request: response status and message, the
optional token field of the body, the lists returned by the list routes, the
resulting store state, and the trace of store calls performed. -/
structure HandlerOut where
  status : Nat
  message : String
  token : Option String := none
  posts : List Post := []
  comments : List Comment := []
  post : Option Post := none
  calls : List StoreCall := []
  store : Store
  deriving DecidableEq, Repr

/-- Deterministic model of the store's id generator (Prisma `uuid()`
default) for newly created rows. -/
def freshId (tag : String) (n : Nat) : String := tag ++ toString n

/-- `app.post("/register")` from `src/index.ts`.  `storeThrow` is `some e`
when the `Client.user.create` call inside the try block throws `e`; the
catch clause maps EVERY such error to 409 "User Already exists", regardless
of cause.  `now` models the row-creation timestamp. -/
def registerHandler (body : RegisterBody) (storeThrow : Option StoreErr)
    (now : Nat) (st : Store) : HandlerOut :=
  match UserSchema.safeParse body with
  | none => { status := 422, message := "Incorrect input", store := st }
  | some data =>
    match storeThrow with
    | some _ => { status := 409, message := "User Already exists", store := st }
    | none =>
      let hashedPassword := bhash data.password
      let u : User :=
        { id := freshId "u" st.users.length, username := data.username,
          email := data.email, password := hashedPassword, created_at := now }
      { status := 200, message := "Registration successfull",
        store := st.userCreate u, calls := [StoreCall.userCreate] }

/-- `app.post("/login")` from `src/index.ts`.  The handler has NO try/catch
around its store or bcrypt calls.  The lookup mirrors

    let user;
    if (parsedData.data.username) { user = findUnique({ username }) }
    else if (parsedData.data.email) { user = findUnique({ email }) }

where the conditions are JS truthiness on the optional fields; the `getD`
defaults are only evaluated under the corresponding truthiness guard. -/
def loginHandler (secret : String) (body : SigninBody) (st : Store) : HandlerOut :=
  match SigninSchem.safeParse body with
  | none => { status := 422, message := "Invalid Input", store := st }
  | some data =>
    let lookup : Option User × List StoreCall :=
      if truthy data.username then
        let uname := data.username.getD ""
        (st.userFindByUsername uname, [StoreCall.userFindByUsername uname])
      else if truthy data.email then
        let em := data.email.getD ""
        (st.userFindByEmail em, [StoreCall.userFindByEmail em])
      else (none, [])
    match lookup.1 with
    | none => { status := 404, message := "Not Authorized", store := st, calls := lookup.2 }
    | some user =>
      let isPassword := bcompare data.password user.password
      if !isPassword then
        { status := 401, message := "Not correct password", store := st, calls := lookup.2 }
      else
        { status := 200, message := "Login successful",
          token := some (jwtSign secret user.id), store := st, calls := lookup.2 }

/-- Outcome of the login route seen from the framework: either a response
was written, or the async handler rejected with an uncaught store error and
wrote NO response at all. -/
inductive LoginOutcome
  | response (out : HandlerOut)
  | unhandledRejection (e : StoreErr)
  deriving DecidableEq, Repr

/-- The full `app.post("/login")` route including the behaviour on a
throwing store.  The handler wraps NO try/catch around its awaited
`findUnique` lookups: after validation, a lookup is attempted exactly when
one of the truthiness guards fires, and if that store call throws the
rejection escapes the async handler — no catch clause exists, so the route
writes no response (`unhandledRejection`).  When no store call throws the
route behaves as `loginHandler`. -/
def loginRoute (secret : String) (body : SigninBody)
    (storeThrow : Option StoreErr) (st : Store) : LoginOutcome :=
  match SigninSchem.safeParse body with
  | none =>
    LoginOutcome.response { status := 422, message := "Invalid Input", store := st }
  | some data =>
    match storeThrow, truthy data.username || truthy data.email with
    | some e, true => LoginOutcome.unhandledRejection e
    | _, _ => LoginOutcome.response (loginHandler secret body st)

/-- `router.post("/")` in `src/routes/posts.ts` (create post).  A thrown
store error lands in the catch clause: 500 "Unable to create Post". -/
def createPostHandler (userId : Option String) (body : CreatePostBody)
    (storeThrow : Option StoreErr) (now : Nat) (st : Store) : HandlerOut :=
  match createPostSchema.safeParse body with
  | none => { status := 400, message := "Validationn Failed", store := st }
  | some data =>
    match storeThrow with
    | some _ => { status := 500, message := "Unable to create Post", store := st }
    | none =>
      let p : Post :=
        { id := freshId "p" st.posts.length, title := data.title,
          content := data.content, author_id := userId.getD "",
          created_at := now, updated_at := now }
      { status := 200, message := "Post Created",
        store := st.postCreate p, calls := [StoreCall.postCreate] }

/-- Arrays returned by Prisma `findMany` are JS arrays and therefore always
truthy: the `if (!allPosts)` guards in the list routes are dead. -/
def jsArrayTruthy (_ : List α) : Bool := true

/-- `router.get("/")` in `src/routes/posts.ts` (list posts, newest first). -/
def listPostsHandler (userId : Option String) (storeThrow : Option StoreErr)
    (st : Store) : HandlerOut :=
  match storeThrow with
  | some _ => { status := 500, message := "Error from server, not able to get post", store := st }
  | none =>
    let allPosts := st.postFindManyDesc
    if !jsArrayTruthy allPosts then
      { status := 404, message := "Posts not found", store := st,
        calls := [StoreCall.postFindMany] }
    else
      { status := 200, message := "Got all posts", posts := allPosts,
        store := st, calls := [StoreCall.postFindMany] }

/-- `router.get("/:postId")` in `src/routes/posts.ts` (get a single post;
the author/comments relation includes are outside the row model): missing-id
check, existence read, 404 when absent, otherwise 200 with the row.  A
thrown store error lands in the catch clause: 500 "Error from server, not
able to get the single post". -/
def getPostHandler (userId : Option String) (postId : String)
    (storeThrow : Option StoreErr) (st : Store) : HandlerOut :=
  if postId.isEmpty then
    { status := 400, message := "Post ID is required", store := st }
  else
    match storeThrow with
    | some _ =>
      { status := 500,
        message := "Error from server, not able to get the single post",
        store := st }
    | none =>
      match st.postFindUnique postId with
      | none =>
        { status := 404, message := "Post not found", store := st,
          calls := [StoreCall.postFindUnique postId] }
      | some post =>
        { status := 200, message := "Got the single post", post := some post,
          store := st, calls := [StoreCall.postFindUnique postId] }

/-- `router.put("/:postId")` in `src/routes/posts.ts` (update post):
missing-id check, validation, existence read of the `{ author_id }`
projection, ownership check, then the partial update built from the
supplied fields only. -/
def updatePostHandler (userId : Option String) (postId : String)
    (body : UpdatePostBody) (storeThrow : Option StoreErr) (st : Store) : HandlerOut :=
  if postId.isEmpty then
    { status := 400, message := "Post ID is required", store := st }
  else
    match updatePostSchema.safeParse body with
    | none => { status := 400, message := "Incorrect input", store := st }
    | some data =>
      match storeThrow with
      | some _ => { status := 500, message := "Server error", store := st }
      | none =>
        match st.postFindUnique postId with
        | none =>
          { status := 404, message := "Post not found", store := st,
            calls := [StoreCall.postFindUnique postId] }
        | some postUpdate =>
          if some postUpdate.author_id != userId then
            { status := 403, message := "Invalid author", store := st,
              calls := [StoreCall.postFindUnique postId] }
          else
            let updateData : PostUpdateData :=
              { title := data.title, content := data.content }
            { status := 200, message := "Post updated",
              store := st.postUpdate postId updateData,
              calls := [StoreCall.postFindUnique postId, StoreCall.postUpdate postId] }

/-- `router.delete("/:postId")` in `src/routes/posts.ts` (delete post):
missing-id check, existence read, ownership check, delete, 204. -/
def deletePostHandler (userId : Option String) (postId : String)
    (storeThrow : Option StoreErr) (st : Store) : HandlerOut :=
  if postId.isEmpty then
    { status := 400, message := "Post ID is required", store := st }
  else
    match storeThrow with
    | some _ => { status := 500, message := "Server error", store := st }
    | none =>
      match st.postFindUnique postId with
      | none =>
        { status := 404, message := "Post not found", store := st,
          calls := [StoreCall.postFindUnique postId] }
      | some postDelete =>
        if some postDelete.author_id != userId then
          { status := 403, message := "Invalid author", store := st,
            calls := [StoreCall.postFindUnique postId] }
        else
          { status := 204, message := "", store := st.postDelete postId,
            calls := [StoreCall.postFindUnique postId, StoreCall.postDelete postId] }

/-- `router.post("/comments")` in `src/routes/comments.ts` (create comment):
validation, presence check of `req.body.post_id` (JS truthiness), create. -/
def createCommentHandler (userId : Option String) (body : CommentBody)
    (storeThrow : Option StoreErr) (now : Nat) (st : Store) : HandlerOut :=
  match CommentSchema.safeParse body with
  | none => { status := 400, message := "Invalid input", store := st }
  | some content =>
    if !truthy body.post_id then
      { status := 400, message := "postId is required", store := st }
    else
      match storeThrow with
      | some _ => { status := 500, message := "Unable to create comment", store := st }
      | none =>
        let c : Comment :=
          { id := freshId "c" st.comments.length, content := content,
            post_id := body.post_id.getD "", author_id := userId.getD "",
            created_at := now, updated_at := now }
        { status := 201, message := "Comment created",
          store := st.commentCreate c, calls := [StoreCall.commentCreate] }

/-- `router.get("/comments")` in `src/routes/comments.ts` (global list of
all comments, newest first; the author field selection is outside the row
model).  The `if (!allComments)` guard is dead — findMany returns an array,
always truthy (and that branch also lacks a `return` in the source).  A
thrown store error lands in the catch clause: 500 "Server error". -/
def listCommentsHandler (userId : Option String) (storeThrow : Option StoreErr)
    (st : Store) : HandlerOut :=
  match storeThrow with
  | some _ => { status := 500, message := "Server error", store := st }
  | none =>
    let allComments := st.commentFindManyDesc
    if !jsArrayTruthy allComments then
      { status := 404, message := "Post not found", store := st,
        calls := [StoreCall.commentFindMany] }
    else
      { status := 200, message := "Get all comments", comments := allComments,
        store := st, calls := [StoreCall.commentFindMany] }

/-- `router.get("/post/:postId")` in `src/routes/comments.ts` (list the
comments of one post, newest first). -/
def listCommentsByPostHandler (userId : Option String) (postId : String)
    (storeThrow : Option StoreErr) (st : Store) : HandlerOut :=
  match storeThrow with
  | some _ => { status := 500, message := "Unable to fetch comments", store := st }
  | none =>
    { status := 200, message := "Got comments",
      comments := st.commentFindByPostDesc postId, store := st,
      calls := [StoreCall.commentFindManyByPost postId] }

/-- `router.put("/comments/:commentId")` in `src/routes/comments.ts`
(update comment): validation, existence read of `{ author_id }`, ownership
check, content update. -/
def updateCommentHandler (userId : Option String) (commentId : String)
    (body : CommentBody) (storeThrow : Option StoreErr) (st : Store) : HandlerOut :=
  match CommentSchema.safeParse body with
  | none => { status := 400, message := "Invalid input", store := st }
  | some content =>
    match storeThrow with
    | some _ => { status := 500, message := "Unable to update comment", store := st }
    | none =>
      match st.commentFindUnique commentId with
      | none =>
        { status := 404, message := "Comment not found", store := st,
          calls := [StoreCall.commentFindUnique commentId] }
      | some found =>
        if some found.author_id != userId then
          { status := 403, message := "Invalid author", store := st,
            calls := [StoreCall.commentFindUnique commentId] }
        else
          { status := 200, message := "Comment updated",
            store := st.commentUpdate commentId content,
            calls := [StoreCall.commentFindUnique commentId,
                      StoreCall.commentUpdate commentId] }

/-- `router.delete("/comments/:commentId")` in `src/routes/comments.ts`
(delete comment): existence read, ownership check, delete, 204. -/
def deleteCommentHandler (userId : Option String) (commentId : String)
    (storeThrow : Option StoreErr) (st : Store) : HandlerOut :=
  match storeThrow with
  | some _ => { status := 500, message := "Unable to delete comment", store := st }
  | none =>
    match st.commentFindUnique commentId with
    | none =>
      { status := 404, message := "Comment not found", store := st,
        calls := [StoreCall.commentFindUnique commentId] }
    | some found =>
      if some found.author_id != userId then
        { status := 403, message := "Invalid author", store := st,
          calls := [StoreCall.commentFindUnique commentId] }
      else
        { status := 204, message := "", store := st.commentDelete commentId,
          calls := [StoreCall.commentFindUnique commentId,
                    StoreCall.commentDelete commentId] }

/-- Status of Express's built-in default error handler, invoked when a
middleware or handler lets an exception escape: it sends a 500 error page
(not a JSON body). -/
def expressDefaultErrorStatus : Nat := 500

/-- A protected route: the middleware runs first; only when it calls
`next()` does the business handler run.  When the middleware throws, Express
sends its default 500 error response and the handler is never entered. -/
def protectedRoute (secret : String) (authHeader : Option Token)
    (handler : String → Store → HandlerOut) (st : Store) : HandlerOut :=
  match middleware secret authHeader with
  | MwOutcome.next uid => handler uid st
  | MwOutcome.responded s m => { status := s, message := m, store := st }
  | MwOutcome.uncaughtError e =>
    { status := expressDefaultErrorStatus, message := e, store := st }

/-- Fixture: a stored user "alice" whose password hash is known. -/
def aliceUser : User :=
  { id := "u1", username := "alice", email := "alice@example.com",
    password := bhash "correctpw1", created_at := 0 }

/-- Fixture: a second stored user "bob". -/
def bobUser : User :=
  { id := "u2", username := "bob", email := "bob@example.com",
    password := bhash "bobpassword", created_at := 1 }

/-- Fixture: a post owned by alice. -/
def postW : Post :=
  { id := "p1", title := "hello", content := "world of posts",
    author_id := "u1", created_at := 5, updated_at := 5 }

/-- Fixture: a comment by alice on her post. -/
def commentW : Comment :=
  { id := "c1", content := "nice one", post_id := "p1",
    author_id := "u1", created_at := 6, updated_at := 6 }

/-- Fixture store holding the two users, the post and the comment. -/
def stW : Store :=
  { users := [aliceUser, bobUser], posts := [postW], comments := [commentW] }

/-- Fixture post for the ordering scenario, at creation time `t`. -/
def post3 (i t : Nat) : Post :=
  { id := "p" ++ toString i, title := "ttt", content := "ccc",
    author_id := "u1", created_at := t, updated_at := t }

/-- Fixture comment for the ordering scenario, at creation time `t`, on post
"p1". -/
def comment3 (i t : Nat) : Comment :=
  { id := "c" ++ toString i, content := "ccc", post_id := "p1",
    author_id := "u1", created_at := t, updated_at := t }

/-- Fixture store with three posts and three comments created at times
`t1`, `t2`, `t3` (stored in ascending creation order). -/
def store3 (t1 t2 t3 : Nat) : Store :=
  { users := [],
    posts := [post3 1 t1, post3 2 t2, post3 3 t3],
    comments := [comment3 1 t1, comment3 2 t2, comment3 3 t3] }

theorem userSchema_parse_none_of_bad_username (body : RegisterBody)
    (uname : String) (hu : body.username = some uname)
    (hlen : uname.length < 3 ∨ 20 < uname.length) :
    UserSchema.safeParse body = none := by
  unfold UserSchema.safeParse
  rw [hu]
  cases he : body.email with
  | none => rfl
  | some e =>
    cases hp : body.password with
    | none => rfl
    | some p =>
      rcases hlen with h | h
      · have h1 : minLen 3 uname = false := by simp [minLen]; omega
        simp [h1]
      · have h1 : maxLen 20 uname = false := by simp [maxLen]; omega
        simp [h1]

/-- C6: a registration payload whose username is shorter than 3 or longer
than 20 characters is rejected with 422 and the register operation performs
no store write (the store is unchanged and the call trace is empty),
whether or not the store would have failed. -/
theorem C6_register_username_length (body : RegisterBody) (uname : String)
    (stThrow : Option StoreErr) (now : Nat) (st : Store)
    (hu : body.username = some uname)
    (hlen : uname.length < 3 ∨ 20 < uname.length) :
    registerHandler body stThrow now st =
      { status := 422, message := "Incorrect input", store := st } ∧
    (registerHandler body stThrow now st).store = st ∧
    (registerHandler body stThrow now st).calls = [] := by
  have hparse := userSchema_parse_none_of_bad_username body uname hu hlen
  refine ⟨?_, ?_, ?_⟩ <;> simp [registerHandler, hparse]

/-- Witness for C6 at a concrete short username. -/
theorem C6_register_username_length_witness :
    registerHandler { username := some "ab", email := some "a@b.c",
                      password := some "password1" } none 0 stEmpty =
      { status := 422, message := "Incorrect input", store := stEmpty } :=
  (C6_register_username_length _ "ab" none 0 stEmpty rfl (by decide)).1

theorem updateParse_none_of_no_field (b : UpdatePostBody)
    (ht : b.title = none) (hc : b.content = none) :
    updatePostSchema.safeParse b = none := by
  simp [updatePostSchema.safeParse, ht, hc, truthy]

/-- C7: an update-post payload supplying neither a title nor a content field
is rejected by validation (`safeParse` returns the failure tag), and the
update operation then answers 400 with the store untouched and no store call
made; validation itself is a total function always returning a tagged
success-or-failure result. -/
theorem C7_update_validation_rejects_empty :
    (∀ b : UpdatePostBody, updatePostSchema.safeParse b = none ∨
       ∃ d, updatePostSchema.safeParse b = some d) ∧
    (∀ b : UpdatePostBody, b.title = none → b.content = none →
       updatePostSchema.safeParse b = none) ∧
    (∀ (uid : Option String) (pid : String) (stThrow : Option StoreErr)
       (st : Store) (b : UpdatePostBody),
       b.title = none → b.content = none → pid.isEmpty = false →
       updatePostHandler uid pid b stThrow st =
         { status := 400, message := "Incorrect input", store := st }) := by
  refine ⟨?_, ?_, ?_⟩
  · intro b
    cases h : updatePostSchema.safeParse b with
    | none => exact Or.inl rfl
    | some d => exact Or.inr ⟨d, rfl⟩
  · intro b ht hc
    exact updateParse_none_of_no_field b ht hc
  · intro uid pid stThrow st b ht hc hpid
    have hparse := updateParse_none_of_no_field b ht hc
    simp [updatePostHandler, hpid, hparse]

/-- Witness for C7 at the concrete empty payload. -/
theorem C7_update_validation_rejects_empty_witness :
    updatePostHandler (some "u1") "p1" { title := none, content := none }
        none stW =
      { status := 400, message := "Incorrect input", store := stW } :=
  C7_update_validation_rejects_empty.2.2 (some "u1") "p1" none stW
    { title := none, content := none } rfl rfl (by decide)

theorem postFindUnique_postDelete (st : Store) (pid : String) :
    (st.postDelete pid).postFindUnique pid = none := by
  unfold Store.postDelete Store.postFindUnique
  rw [List.find?_eq_none]
  intro x hx
  have h := (List.mem_filter.mp hx).2
  simpa using h

theorem commentFindUnique_commentDelete (st : Store) (cid : String) :
    (st.commentDelete cid).commentFindUnique cid = none := by
  unfold Store.commentDelete Store.commentFindUnique
  rw [List.find?_eq_none]
  intro x hx
  have h := (List.mem_filter.mp hx).2
  simpa using h

/-- C8: deleting a Post or Comment whose id is absent from the store answers
404 and performs no store mutation (only the existence read appears in the
trace, and the store is returned unchanged); in particular a second delete
of an id just deleted by its author answers 404, never a second success. -/
theorem C8_delete_absent_not_found :
    (∀ (uid : Option String) (pid : String) (st : Store),
       pid.isEmpty = false → st.postFindUnique pid = none →
       deletePostHandler uid pid none st =
         { status := 404, message := "Post not found", store := st,
           calls := [StoreCall.postFindUnique pid] }) ∧
    (∀ (uid : Option String) (cid : String) (st : Store),
       st.commentFindUnique cid = none →
       deleteCommentHandler uid cid none st =
         { status := 404, message := "Comment not found", store := st,
           calls := [StoreCall.commentFindUnique cid] }) ∧
    (∀ (pid : String) (st : Store) (p : Post),
       pid.isEmpty = false → st.postFindUnique pid = some p →
       deletePostHandler (some p.author_id) pid none
           ((deletePostHandler (some p.author_id) pid none st).store) =
         { status := 404, message := "Post not found",
           store := (deletePostHandler (some p.author_id) pid none st).store,
           calls := [StoreCall.postFindUnique pid] }) ∧
    (∀ (cid : String) (st : Store) (c : Comment),
       st.commentFindUnique cid = some c →
       deleteCommentHandler (some c.author_id) cid none
           ((deleteCommentHandler (some c.author_id) cid none st).store) =
         { status := 404, message := "Comment not found",
           store := (deleteCommentHandler (some c.author_id) cid none st).store,
           calls := [StoreCall.commentFindUnique cid] }) := by
  refine ⟨?_, ?_, ?_, ?_⟩
  · intro uid pid st hpid hfind
    simp [deletePostHandler, hpid, hfind]
  · intro uid cid st hfind
    simp [deleteCommentHandler, hfind]
  · intro pid st p hpid hfind
    have h1 : (deletePostHandler (some p.author_id) pid none st).store =
        st.postDelete pid := by
      simp [deletePostHandler, hpid, hfind]
    rw [h1]
    simp [deletePostHandler, hpid, postFindUnique_postDelete]
  · intro cid st c hfind
    have h1 : (deleteCommentHandler (some c.author_id) cid none st).store =
        st.commentDelete cid := by
      simp [deleteCommentHandler, hfind]
    rw [h1]
    simp [deleteCommentHandler, commentFindUnique_commentDelete]

/-- Witness for C8 at a concrete absent id and a concrete delete-then-delete
sequence. -/
theorem C8_delete_absent_not_found_witness :
    deletePostHandler (some "u1") "nope" none stW =
      { status := 404, message := "Post not found", store := stW,
        calls := [StoreCall.postFindUnique "nope"] } ∧
    deletePostHandler (some "u1") "p1" none
        ((deletePostHandler (some "u1") "p1" none stW).store) =
      { status := 404, message := "Post not found",
        store := (deletePostHandler (some "u1") "p1" none stW).store,
        calls := [StoreCall.postFindUnique "p1"] } :=
  ⟨C8_delete_absent_not_found.1 (some "u1") "nope" stW (by decide) (by decide),
   by
     have h := C8_delete_absent_not_found.2.2.1 "p1" stW postW (by decide) (by decide)
     simpa [postW] using h⟩

/-- C1: for Update/Delete on Post and Comment, when the target exists and
the caller's subjectId differs from the resource's `author_id` the handler
answers 403 and leaves the store unchanged (only the existence read is
traced); when the subjectId equals `author_id` the mutation proceeds to the
store (the update/delete store call is traced and the store is mutated
accordingly). -/
theorem C1_mutation_ownership_gate :
    (∀ (uid : Option String) (pid : String) (b : UpdatePostBody)
       (d : UpdatePostBody) (st : Store) (p : Post),
       pid.isEmpty = false → updatePostSchema.safeParse b = some d →
       st.postFindUnique pid = some p →
       (some p.author_id ≠ uid →
          updatePostHandler uid pid b none st =
            { status := 403, message := "Invalid author", store := st,
              calls := [StoreCall.postFindUnique pid] }) ∧
       (some p.author_id = uid →
          updatePostHandler uid pid b none st =
            { status := 200, message := "Post updated",
              store := st.postUpdate pid { title := d.title, content := d.content },
              calls := [StoreCall.postFindUnique pid, StoreCall.postUpdate pid] })) ∧
    (∀ (uid : Option String) (pid : String) (st : Store) (p : Post),
       pid.isEmpty = false → st.postFindUnique pid = some p →
       (some p.author_id ≠ uid →
          deletePostHandler uid pid none st =
            { status := 403, message := "Invalid author", store := st,
              calls := [StoreCall.postFindUnique pid] }) ∧
       (some p.author_id = uid →
          deletePostHandler uid pid none st =
            { status := 204, message := "", store := st.postDelete pid,
              calls := [StoreCall.postFindUnique pid, StoreCall.postDelete pid] })) ∧
    (∀ (uid : Option String) (cid : String) (b : CommentBody)
       (content : String) (st : Store) (c : Comment),
       CommentSchema.safeParse b = some content →
       st.commentFindUnique cid = some c →
       (some c.author_id ≠ uid →
          updateCommentHandler uid cid b none st =
            { status := 403, message := "Invalid author", store := st,
              calls := [StoreCall.commentFindUnique cid] }) ∧
       (some c.author_id = uid →
          updateCommentHandler uid cid b none st =
            { status := 200, message := "Comment updated",
              store := st.commentUpdate cid content,
              calls := [StoreCall.commentFindUnique cid,
                        StoreCall.commentUpdate cid] })) ∧
    (∀ (uid : Option String) (cid : String) (st : Store) (c : Comment),
       st.commentFindUnique cid = some c →
       (some c.author_id ≠ uid →
          deleteCommentHandler uid cid none st =
            { status := 403, message := "Invalid author", store := st,
              calls := [StoreCall.commentFindUnique cid] }) ∧
       (some c.author_id = uid →
          deleteCommentHandler uid cid none st =
            { status := 204, message := "", store := st.commentDelete cid,
              calls := [StoreCall.commentFindUnique cid,
                        StoreCall.commentDelete cid] })) := by
  refine ⟨?_, ?_, ?_, ?_⟩
  · intro uid pid b d st p hpid hparse hfind
    constructor
    · intro hne
      simp [updatePostHandler, hpid, hparse, hfind, hne]
    · intro heq
      subst heq
      simp [updatePostHandler, hpid, hparse, hfind]
  · intro uid pid st p hpid hfind
    constructor
    · intro hne
      simp [deletePostHandler, hpid, hfind, hne]
    · intro heq
      subst heq
      simp [deletePostHandler, hpid, hfind]
  · intro uid cid b content st c hparse hfind
    constructor
    · intro hne
      simp [updateCommentHandler, hparse, hfind, hne]
    · intro heq
      subst heq
      simp [updateCommentHandler, hparse, hfind]
  · intro uid cid st c hfind
    constructor
    · intro hne
      simp [deleteCommentHandler, hfind, hne]
    · intro heq
      subst heq
      simp [deleteCommentHandler, hfind]

/-- Witness for C1: on the fixture store, bob (u2) is refused alice's post
and comment with 403 and the store stays intact; alice (u1) gets the
mutation applied. -/
theorem C1_mutation_ownership_gate_witness :
    updatePostHandler (some "u2") "p1"
        { title := some "new title", content := none } none stW =
      { status := 403, message := "Invalid author", store := stW,
        calls := [StoreCall.postFindUnique "p1"] } ∧
    updatePostHandler (some "u1") "p1"
        { title := some "new title", content := none } none stW =
      { status := 200, message := "Post updated",
        store := stW.postUpdate "p1" { title := some "new title", content := none },
        calls := [StoreCall.postFindUnique "p1", StoreCall.postUpdate "p1"] } ∧
    deletePostHandler (some "u2") "p1" none stW =
      { status := 403, message := "Invalid author", store := stW,
        calls := [StoreCall.postFindUnique "p1"] } ∧
    deletePostHandler (some "u1") "p1" none stW =
      { status := 204, message := "", store := stW.postDelete "p1",
        calls := [StoreCall.postFindUnique "p1", StoreCall.postDelete "p1"] } ∧
    updateCommentHandler (some "u2") "c1"
        { content := some "edited text", post_id := none } none stW =
      { status := 403, message := "Invalid author", store := stW,
        calls := [StoreCall.commentFindUnique "c1"] } ∧
    updateCommentHandler (some "u1") "c1"
        { content := some "edited text", post_id := none } none stW =
      { status := 200, message := "Comment updated",
        store := stW.commentUpdate "c1" "edited text",
        calls := [StoreCall.commentFindUnique "c1", StoreCall.commentUpdate "c1"] } ∧
    deleteCommentHandler (some "u2") "c1" none stW =
      { status := 403, message := "Invalid author", store := stW,
        calls := [StoreCall.commentFindUnique "c1"] } ∧
    deleteCommentHandler (some "u1") "c1" none stW =
      { status := 204, message := "", store := stW.commentDelete "c1",
        calls := [StoreCall.commentFindUnique "c1", StoreCall.commentDelete "c1"] } := by
  have hpost := C1_mutation_ownership_gate.1 (some "u2") "p1"
    { title := some "new title", content := none }
    { title := some "new title", content := none } stW postW
    (by decide) (by decide) (by decide)
  have hpost2 := C1_mutation_ownership_gate.1 (some "u1") "p1"
    { title := some "new title", content := none }
    { title := some "new title", content := none } stW postW
    (by decide) (by decide) (by decide)
  have hdel := C1_mutation_ownership_gate.2.1 (some "u2") "p1" stW postW
    (by decide) (by decide)
  have hdel2 := C1_mutation_ownership_gate.2.1 (some "u1") "p1" stW postW
    (by decide) (by decide)
  have hcup := C1_mutation_ownership_gate.2.2.1 (some "u2") "c1"
    { content := some "edited text", post_id := none } "edited text" stW commentW
    (by decide) (by decide)
  have hcup2 := C1_mutation_ownership_gate.2.2.1 (some "u1") "c1"
    { content := some "edited text", post_id := none } "edited text" stW commentW
    (by decide) (by decide)
  have hcdel := C1_mutation_ownership_gate.2.2.2 (some "u2") "c1" stW commentW
    (by decide)
  have hcdel2 := C1_mutation_ownership_gate.2.2.2 (some "u1") "c1" stW commentW
    (by decide)
  exact ⟨hpost.1 (by decide), hpost2.2 (by decide),
         hdel.1 (by decide), hdel2.2 (by decide),
         hcup.1 (by decide), hcup2.2 (by decide),
         hcdel.1 (by decide), hcdel2.2 (by decide)⟩

theorem applyPostUpdate_id (u : PostUpdateData) (p : Post) :
    (applyPostUpdate u p).id = p.id := rfl

theorem find?_map_update_post (l : List Post) (pid : String) (u : PostUpdateData) :
    (l.map (fun p => if p.id == pid then applyPostUpdate u p else p)).find?
        (fun p => p.id == pid) =
      (l.find? (fun p => p.id == pid)).map (applyPostUpdate u) := by
  induction l with
  | nil => rfl
  | cons p rest ih =>
    simp only [List.map_cons]
    by_cases h : (p.id == pid) = true
    · rw [if_pos h, List.find?_cons, List.find?_cons]
      simp only [applyPostUpdate_id, h]
      rfl
    · have h' : (p.id == pid) = false := by
        revert h; cases p.id == pid <;> simp
      rw [if_neg h, List.find?_cons, List.find?_cons]
      simp only [applyPostUpdate_id, h']
      exact ih

theorem postFindUnique_postUpdate (st : Store) (pid : String) (u : PostUpdateData) :
    (st.postUpdate pid u).postFindUnique pid =
      (st.postFindUnique pid).map (applyPostUpdate u) := by
  unfold Store.postUpdate Store.postFindUnique
  exact find?_map_update_post st.posts pid u

/-- C10: a successful update writes exactly the supplied fields: afterwards
the post found at the same id is the old row with only title/content
replaced where supplied; its id, author_id and created_at are unchanged, a
field absent from the payload keeps its prior value and a supplied field
takes the supplied value. -/
theorem C10_update_post_frame (uid : Option String) (pid : String)
    (b d : UpdatePostBody) (st : Store) (p : Post)
    (hpid : pid.isEmpty = false)
    (hparse : updatePostSchema.safeParse b = some d)
    (hfind : st.postFindUnique pid = some p)
    (hown : some p.author_id = uid) :
    (updatePostHandler uid pid b none st).status = 200 ∧
    (updatePostHandler uid pid b none st).store.postFindUnique pid =
      some (applyPostUpdate { title := d.title, content := d.content } p) ∧
    (applyPostUpdate { title := d.title, content := d.content } p).id = p.id ∧
    (applyPostUpdate { title := d.title, content := d.content } p).author_id =
      p.author_id ∧
    (applyPostUpdate { title := d.title, content := d.content } p).created_at =
      p.created_at ∧
    (d.title = none →
      (applyPostUpdate { title := d.title, content := d.content } p).title = p.title) ∧
    (∀ t, d.title = some t →
      (applyPostUpdate { title := d.title, content := d.content } p).title = t) ∧
    (d.content = none →
      (applyPostUpdate { title := d.title, content := d.content } p).content =
        p.content) ∧
    (∀ c, d.content = some c →
      (applyPostUpdate { title := d.title, content := d.content } p).content = c) := by
  subst hown
  have hout : updatePostHandler (some p.author_id) pid b none st =
      { status := 200, message := "Post updated",
        store := st.postUpdate pid { title := d.title, content := d.content },
        calls := [StoreCall.postFindUnique pid, StoreCall.postUpdate pid] } := by
    simp [updatePostHandler, hpid, hparse, hfind]
  refine ⟨by rw [hout], ?_, rfl, rfl, rfl, ?_, ?_, ?_, ?_⟩
  · rw [hout]
    show (st.postUpdate pid { title := d.title, content := d.content }).postFindUnique
        pid = _
    rw [postFindUnique_postUpdate, hfind]
    rfl
  · intro ht; simp [applyPostUpdate, ht]
  · intro t ht; simp [applyPostUpdate, ht]
  · intro hc; simp [applyPostUpdate, hc]
  · intro c hc; simp [applyPostUpdate, hc]

/-- Witness for C10: alice updates only the title of her post; the content,
id, author and creation time survive. -/
theorem C10_update_post_frame_witness :
    (updatePostHandler (some "u1") "p1"
        { title := some "new title", content := none } none stW).status = 200 ∧
    (updatePostHandler (some "u1") "p1"
        { title := some "new title", content := none } none stW).store.postFindUnique
        "p1" =
      some (applyPostUpdate { title := some "new title", content := none } postW) ∧
    (applyPostUpdate { title := some "new title", content := none } postW).content =
      postW.content := by
  have h := C10_update_post_frame (some "u1") "p1"
    { title := some "new title", content := none }
    { title := some "new title", content := none } stW postW
    (by decide) (by decide) (by decide) (by decide)
  exact ⟨h.1, h.2.1, h.2.2.2.2.2.2.2.1 rfl⟩

/-- C3 counterexample: the uniform-500 claim fails on the two auth
handlers.  A store failure that is NOT a uniqueness violation (here a lost
connection) thrown by the register handler's user-create store call is
answered 409 "User Already exists", not 500; and the same failure thrown by
the login handler's user lookup escapes the handler as an unhandled
rejection — no response is produced at all, in particular no 500. -/
theorem C3_register_store_error_counterexample :
    (registerHandler { username := some "alice", email := some "a@b.c",
                       password := some "password1" }
        (some StoreErr.connectionLost) 0 stEmpty).status = 409 ∧
    (registerHandler { username := some "alice", email := some "a@b.c",
                       password := some "password1" }
        (some StoreErr.connectionLost) 0 stEmpty).message = "User Already exists" ∧
    (registerHandler { username := some "alice", email := some "a@b.c",
                       password := some "password1" }
        (some StoreErr.connectionLost) 0 stEmpty).status ≠ 500 ∧
    loginRoute "secret" { username := some "alice", email := none,
                          password := some "correctpw1" }
        (some StoreErr.connectionLost) stEmpty =
      LoginOutcome.unhandledRejection StoreErr.connectionLost ∧
    (∀ out, loginRoute "secret" { username := some "alice", email := none,
                                  password := some "correctpw1" }
        (some StoreErr.connectionLost) stEmpty ≠ LoginOutcome.response out) := by
  refine ⟨by decide, by decide, by decide, by decide, ?_⟩
  intro out h
  cases h

/-- C3 amended: every Post and Comment operation handler
(create/list/get/update/delete post; create/global-list/list-by-post/
update/delete comment) maps a thrown resource-store error to InternalFailure
(500) uniformly, regardless of cause.  The Register handler instead maps
every thrown user-create store error, regardless of cause, to 409 "User
Already exists" (never 500).  The Login handler catches nothing: when its
user lookup throws, the rejection escapes the async handler and no response
is produced at all (in particular no 500). -/
theorem C3_store_error_mapping_amended :
    (∀ (e : StoreErr) (uid : Option String) (b : CreatePostBody)
       (d : CreatePostData) (now : Nat) (st : Store),
       createPostSchema.safeParse b = some d →
       (createPostHandler uid b (some e) now st).status = 500) ∧
    (∀ (e : StoreErr) (uid : Option String) (st : Store),
       (listPostsHandler uid (some e) st).status = 500) ∧
    (∀ (e : StoreErr) (uid : Option String) (pid : String) (st : Store),
       pid.isEmpty = false →
       (getPostHandler uid pid (some e) st).status = 500) ∧
    (∀ (e : StoreErr) (uid : Option String) (pid : String) (b : UpdatePostBody)
       (d : UpdatePostBody) (st : Store),
       pid.isEmpty = false → updatePostSchema.safeParse b = some d →
       (updatePostHandler uid pid b (some e) st).status = 500) ∧
    (∀ (e : StoreErr) (uid : Option String) (pid : String) (st : Store),
       pid.isEmpty = false →
       (deletePostHandler uid pid (some e) st).status = 500) ∧
    (∀ (e : StoreErr) (uid : Option String) (b : CommentBody) (c : String)
       (now : Nat) (st : Store),
       CommentSchema.safeParse b = some c → truthy b.post_id = true →
       (createCommentHandler uid b (some e) now st).status = 500) ∧
    (∀ (e : StoreErr) (uid : Option String) (st : Store),
       (listCommentsHandler uid (some e) st).status = 500) ∧
    (∀ (e : StoreErr) (uid : Option String) (pid : String) (st : Store),
       (listCommentsByPostHandler uid pid (some e) st).status = 500) ∧
    (∀ (e : StoreErr) (uid : Option String) (cid : String) (b : CommentBody)
       (c : String) (st : Store),
       CommentSchema.safeParse b = some c →
       (updateCommentHandler uid cid b (some e) st).status = 500) ∧
    (∀ (e : StoreErr) (uid : Option String) (cid : String) (st : Store),
       (deleteCommentHandler uid cid (some e) st).status = 500) ∧
    (∀ (e : StoreErr) (b : RegisterBody) (d : RegisterData) (now : Nat)
       (st : Store),
       UserSchema.safeParse b = some d →
       (registerHandler b (some e) now st).status = 409) ∧
    (∀ (e : StoreErr) (secret : String) (b : SigninBody) (d : SigninData)
       (st : Store),
       SigninSchem.safeParse b = some d →
       (truthy d.username || truthy d.email) = true →
       loginRoute secret b (some e) st = LoginOutcome.unhandledRejection e) := by
  refine ⟨?_, ?_, ?_, ?_, ?_, ?_, ?_, ?_, ?_, ?_, ?_, ?_⟩
  · intro e uid b d now st hparse
    simp [createPostHandler, hparse]
  · intro e uid st
    simp [listPostsHandler]
  · intro e uid pid st hpid
    simp [getPostHandler, hpid]
  · intro e uid pid b d st hpid hparse
    simp [updatePostHandler, hpid, hparse]
  · intro e uid pid st hpid
    simp [deletePostHandler, hpid]
  · intro e uid b c now st hparse hpid
    simp [createCommentHandler, hparse, hpid]
  · intro e uid st
    simp [listCommentsHandler]
  · intro e uid pid st
    simp [listCommentsByPostHandler]
  · intro e uid cid b c st hparse
    simp [updateCommentHandler, hparse]
  · intro e uid cid st
    simp [deleteCommentHandler]
  · intro e b d now st hparse
    simp [registerHandler, hparse]
  · intro e secret b d st hparse hguard
    simp [loginRoute, hparse, hguard]

/-- Witness for the amended C3 at concrete inputs: throwing store calls in
the create-post, get-post and global list-comments handlers yield 500, a
throwing register create yields 409, and a throwing login lookup yields no
response at all. -/
theorem C3_store_error_mapping_amended_witness :
    (createPostHandler (some "u1")
        { title := some "hello", content := some "world" }
        (some StoreErr.connectionLost) 0 stEmpty).status = 500 ∧
    (getPostHandler (some "u1") "p1"
        (some StoreErr.connectionLost) stEmpty).status = 500 ∧
    (listCommentsHandler (some "u1")
        (some StoreErr.connectionLost) stEmpty).status = 500 ∧
    (registerHandler { username := some "carol", email := some "c@d.e",
                       password := some "password1" }
        (some StoreErr.connectionLost) 0 stEmpty).status = 409 ∧
    loginRoute "secret" { username := some "carol", email := none,
                          password := some "password1" }
        (some StoreErr.connectionLost) stEmpty =
      LoginOutcome.unhandledRejection StoreErr.connectionLost :=
  ⟨C3_store_error_mapping_amended.1 StoreErr.connectionLost (some "u1")
      { title := some "hello", content := some "world" }
      { title := "hello", content := "world" } 0 stEmpty (by decide),
   C3_store_error_mapping_amended.2.2.1 StoreErr.connectionLost (some "u1")
      "p1" stEmpty (by decide),
   C3_store_error_mapping_amended.2.2.2.2.2.2.1 StoreErr.connectionLost
      (some "u1") stEmpty,
   C3_store_error_mapping_amended.2.2.2.2.2.2.2.2.2.2.1 StoreErr.connectionLost
      { username := some "carol", email := some "c@d.e",
        password := some "password1" }
      { username := "carol", email := "c@d.e", password := "password1" }
      0 stEmpty (by decide),
   C3_store_error_mapping_amended.2.2.2.2.2.2.2.2.2.2.2 StoreErr.connectionLost
      "secret"
      { username := some "carol", email := none, password := some "password1" }
      { username := some "carol", email := none, password := "password1" }
      stEmpty (by decide) (by decide)⟩

theorem truthy_of_len (s : String) (h : 1 ≤ s.length) : truthy (some s) = true := by
  unfold truthy
  rcases eq_or_ne s "" with rfl | hne
  · exact absurd h (by decide)
  · simp [hne]

theorem signinParse_facts (b : SigninBody) (d : SigninData)
    (h : SigninSchem.safeParse b = some d) :
    d.username = b.username ∧ d.email = b.email ∧
    (∀ u, d.username = some u → 3 ≤ u.length) ∧
    (∀ e, d.email = some e → 1 ≤ e.length) := by
  unfold SigninSchem.safeParse at h
  cases hp : b.password with
  | none => rw [hp] at h; cases h
  | some p =>
    rw [hp] at h
    dsimp only at h
    split at h
    · rename_i hcond
      injection h with h2
      subst h2
      refine ⟨rfl, rfl, ?_, ?_⟩
      · intro u hu
        dsimp only at hu
        rw [hu] at hcond
        simp only [minLen, maxLen, Bool.and_eq_true, decide_eq_true_eq] at hcond
        exact hcond.1.1.1.1
      · intro e he
        dsimp only at he
        rw [he] at hcond
        simp only [minLen, maxLen, Bool.and_eq_true, decide_eq_true_eq] at hcond
        exact hcond.1.1.2
    · cases h

theorem loginHandler_calls_eval (secret : String) (b : SigninBody)
    (d : SigninData) (st : Store)
    (hparse : SigninSchem.safeParse b = some d) :
    (loginHandler secret b st).calls =
      (if truthy d.username then [StoreCall.userFindByUsername (d.username.getD "")]
       else if truthy d.email then [StoreCall.userFindByEmail (d.email.getD "")]
       else []) := by
  unfold loginHandler
  rw [hparse]
  dsimp only
  by_cases hu : truthy d.username = true
  · simp only [hu, if_true]
    split
    · rfl
    · split <;> rfl
  · simp only [hu, if_false, Bool.not_eq_true] at *
    simp only [hu, Bool.false_eq_true, if_false]
    by_cases he : truthy d.email = true
    · simp only [he, if_true]
      split
      · rfl
      · split <;> rfl
    · simp only [he, Bool.not_eq_true] at *
      simp only [he, Bool.false_eq_true, if_false]

/-- C5: for every valid login payload exactly one user-lookup path is taken:
when the username field is present the store is queried by username (even if
an email is also present — username has priority), otherwise when the email
field is present the store is queried by email; in every case at most one
lookup call is made. -/
theorem C5_login_single_lookup (secret : String) (b : SigninBody)
    (d : SigninData) (st : Store)
    (hparse : SigninSchem.safeParse b = some d) :
    (∀ u, d.username = some u →
       (loginHandler secret b st).calls = [StoreCall.userFindByUsername u]) ∧
    (d.username = none → ∀ e, d.email = some e →
       (loginHandler secret b st).calls = [StoreCall.userFindByEmail e]) ∧
    (loginHandler secret b st).calls.length ≤ 1 := by
  obtain ⟨-, -, hulen, helen⟩ := signinParse_facts b d hparse
  have hcalls := loginHandler_calls_eval secret b d st hparse
  refine ⟨?_, ?_, ?_⟩
  · intro u hu
    have ht : truthy d.username = true := by
      rw [hu]
      exact truthy_of_len u (le_trans (by decide) (hulen u hu))
    rw [hcalls, if_pos ht, hu]
    rfl
  · intro hu e he
    have ht : truthy d.email = true := by
      rw [he]
      exact truthy_of_len e (helen e he)
    rw [hcalls, if_neg (by simp [hu, truthy]), if_pos ht, he]
    rfl
  · rw [hcalls]
    by_cases hu : truthy d.username = true
    · simp [hu]
    · by_cases he : truthy d.email = true
      · simp [hu, he]
      · simp [hu, he]

/-- Witness for C5: a concrete valid payload carrying both username and
email queries the store by username only. -/
theorem C5_login_single_lookup_witness :
    (loginHandler "secret" { username := some "alice",
                             email := some "alice@example.com",
                             password := some "correctpw1" } stW).calls =
      [StoreCall.userFindByUsername "alice"] :=
  (C5_login_single_lookup "secret" _
      { username := some "alice", email := some "alice@example.com",
        password := "correctpw1" } stW (by decide)).1 "alice" rfl

theorem loginHandler_username_eval (secret : String) (b : SigninBody)
    (d : SigninData) (st : Store) (u : String)
    (hparse : SigninSchem.safeParse b = some d)
    (hdu : d.username = some u) (hne : u ≠ "") :
    loginHandler secret b st =
      (match st.userFindByUsername u with
       | none =>
         { status := 404, message := "Not Authorized", store := st,
           calls := [StoreCall.userFindByUsername u] }
       | some user =>
         if !(bcompare d.password user.password) then
           { status := 401, message := "Not correct password", store := st,
             calls := [StoreCall.userFindByUsername u] }
         else
           { status := 200, message := "Login successful",
             token := some (jwtSign secret user.id), store := st,
             calls := [StoreCall.userFindByUsername u] }) := by
  have ht : truthy (some u) = true := by simp [truthy, hne]
  unfold loginHandler
  rw [hparse]
  dsimp only
  rw [hdu]
  simp only [ht, if_true, Option.getD_some]

/-- C4: with a stored user found under the supplied username, login with the
correct password answers 200 and a non-empty signed token; login with a
wrong password answers 401; login naming a username under which no user is
stored answers 404. -/
theorem C4_login_outcomes (secret : String) (b : SigninBody) (d : SigninData)
    (st : Store) (u : String)
    (hparse : SigninSchem.safeParse b = some d)
    (hdu : d.username = some u) :
    (∀ user, st.userFindByUsername u = some user →
       bcompare d.password user.password = true →
       (loginHandler secret b st).status = 200 ∧
       (loginHandler secret b st).token = some (jwtSign secret user.id) ∧
       jwtSign secret user.id ≠ "") ∧
    (∀ user, st.userFindByUsername u = some user →
       bcompare d.password user.password = false →
       (loginHandler secret b st).status = 401) ∧
    (st.userFindByUsername u = none →
       (loginHandler secret b st).status = 404) := by
  obtain ⟨-, -, hulen, -⟩ := signinParse_facts b d hparse
  have hne : u ≠ "" := by
    intro hEmpty
    have := hulen u hdu
    rw [hEmpty] at this
    exact absurd this (by decide)
  have heval := loginHandler_username_eval secret b d st u hparse hdu hne
  refine ⟨?_, ?_, ?_⟩
  · intro user hfind hbc
    rw [heval, hfind]
    refine ⟨by simp [hbc], by simp [hbc], ?_⟩
    intro hstr
    have : ("jwt." ++ secret ++ "." ++ user.id).length = 0 := by
      rw [show "jwt." ++ secret ++ "." ++ user.id = jwtSign secret user.id from rfl,
          hstr]
      rfl
    simp [String.length_append] at this
    exact absurd this.1.1.1 (by decide)
  · intro user hfind hbc
    rw [heval, hfind]
    simp [hbc]
  · intro hfind
    rw [heval, hfind]

/-- Witness for C4: the fixture user alice with the known hash; correct
password logs in with a non-empty token, wrong password is 401, unknown
username is 404. -/
theorem C4_login_outcomes_witness :
    (loginHandler "secret" { username := some "alice", email := none,
                             password := some "correctpw1" } stW).status = 200 ∧
    (loginHandler "secret" { username := some "alice", email := none,
                             password := some "wrongpass1" } stW).status = 401 ∧
    (loginHandler "secret" { username := some "mallory", email := none,
                             password := some "correctpw1" } stW).status = 404 :=
  ⟨((C4_login_outcomes "secret" _
      { username := some "alice", email := none, password := "correctpw1" }
      stW "alice" (by decide) rfl).1 aliceUser (by decide) (by decide)).1,
   (C4_login_outcomes "secret" _
      { username := some "alice", email := none, password := "wrongpass1" }
      stW "alice" (by decide) rfl).2.1 aliceUser (by decide) (by decide),
   (C4_login_outcomes "secret" _
      { username := some "mallory", email := none, password := "correctpw1" }
      stW "mallory" (by decide) rfl).2.2 (by decide)⟩

theorem mem_insertByDesc (key : α → Nat) (x a : α) (l : List α) :
    a ∈ insertByDesc key x l ↔ a = x ∨ a ∈ l := by
  induction l with
  | nil => simp [insertByDesc]
  | cons y ys ih =>
    by_cases h : key y ≤ key x
    · simp only [insertByDesc, if_pos h, List.mem_cons]
    · simp only [insertByDesc, if_neg h, List.mem_cons, ih]
      tauto

theorem pairwise_insertByDesc (key : α → Nat) (x : α) (l : List α)
    (h : l.Pairwise (fun a b => key b ≤ key a)) :
    (insertByDesc key x l).Pairwise (fun a b => key b ≤ key a) := by
  induction l with
  | nil => simp [insertByDesc]
  | cons y ys ih =>
    rcases List.pairwise_cons.mp h with ⟨hy, hys⟩
    by_cases hc : key y ≤ key x
    · simp only [insertByDesc, if_pos hc]
      refine List.pairwise_cons.mpr ⟨?_, h⟩
      intro b hb
      rcases List.mem_cons.mp hb with rfl | hbys
      · exact hc
      · exact le_trans (hy b hbys) hc
    · simp only [insertByDesc, if_neg hc]
      refine List.pairwise_cons.mpr ⟨?_, ih hys⟩
      intro b hb
      rcases (mem_insertByDesc key x b ys).mp hb with rfl | hbys
      · exact le_of_lt (not_le.mp hc)
      · exact hy b hbys

theorem pairwise_sortByDesc (key : α → Nat) (l : List α) :
    (sortByDesc key l).Pairwise (fun a b => key b ≤ key a) := by
  induction l with
  | nil => simp [sortByDesc]
  | cons x xs ih =>
    simp only [sortByDesc]
    exact pairwise_insertByDesc key x _ ih

/-- C9: for every store state, List Posts and List Comments-by-post return
their items sorted by creation time descending; on a store holding three
resources created at times t1 < t2 < t3, both lists come back in the order
[t3, t2, t1]. -/
theorem C9_lists_sorted_desc :
    (∀ (uid : Option String) (st : Store),
       ((listPostsHandler uid none st).posts.map Post.created_at).Sorted (· ≥ ·)) ∧
    (∀ (uid : Option String) (pid : String) (st : Store),
       ((listCommentsByPostHandler uid pid none st).comments.map
          Comment.created_at).Sorted (· ≥ ·)) ∧
    (∀ t1 t2 t3 : Nat, t1 < t2 → t2 < t3 →
       ((listPostsHandler (some "u1") none (store3 t1 t2 t3)).posts.map
          Post.created_at) = [t3, t2, t1] ∧
       ((listCommentsByPostHandler (some "u1") "p1" none
            (store3 t1 t2 t3)).comments.map Comment.created_at) = [t3, t2, t1]) := by
  refine ⟨?_, ?_, ?_⟩
  · intro uid st
    exact List.pairwise_map.mpr (pairwise_sortByDesc Post.created_at st.posts)
  · intro uid pid st
    exact List.pairwise_map.mpr
      (pairwise_sortByDesc Comment.created_at
        (st.comments.filter (fun c => c.post_id == pid)))
  · intro t1 t2 t3 h12 h23
    have h31 : ¬ (t3 ≤ t1) := not_le.mpr (lt_trans h12 h23)
    have h32 : ¬ (t3 ≤ t2) := not_le.mpr h23
    have h21 : ¬ (t2 ≤ t1) := not_le.mpr h12
    constructor
    · simp [listPostsHandler, jsArrayTruthy, Store.postFindManyDesc, store3,
            post3, sortByDesc, insertByDesc, h31, h32, h21]
    · simp [listCommentsByPostHandler, Store.commentFindByPostDesc, store3,
            comment3, sortByDesc, insertByDesc, h31, h32, h21]

/-- Witness for C9 at the concrete times 0 < 1 < 2. -/
theorem C9_lists_sorted_desc_witness :
    ((listPostsHandler (some "u1") none (store3 0 1 2)).posts.map
       Post.created_at) = [2, 1, 0] ∧
    ((listCommentsByPostHandler (some "u1") "p1" none
         (store3 0 1 2)).comments.map Comment.created_at) = [2, 1, 0] :=
  C9_lists_sorted_desc.2.2 0 1 2 (by decide) (by decide)

/-- C2 (code defect): the authorization middleware calls `jwt.verify`
without any try/catch, and `jwt.verify` THROWS on a missing, malformed or
wrongly-signed token — it never returns a falsy value.  So on every such
request the middleware lets the exception escape and Express sends its
default 500 error response; the 404 {message: "Not Authorized"} branch of
the middleware is unreachable on these inputs.  What does hold: the request
never reaches the business handler and no resource-store call occurs. -/
theorem C2_auth_guard_throws :
    (∀ secret : String, middleware secret none =
        MwOutcome.uncaughtError "jwt must be provided") ∧
    (∀ secret raw : String, middleware secret (some (Token.malformed raw)) =
        MwOutcome.uncaughtError "jwt malformed") ∧
    (∀ secret s uid : String, s ≠ secret →
        middleware secret (some (Token.signed s uid)) =
          MwOutcome.uncaughtError "invalid signature") ∧
    (∀ (secret : String) (h : Option Token) (e : String),
        middleware secret h = MwOutcome.uncaughtError e →
        ∀ (f : String → Store → HandlerOut) (st : Store),
          protectedRoute secret h f st =
            { status := expressDefaultErrorStatus, message := e, store := st } ∧
          (protectedRoute secret h f st).calls = [] ∧
          (protectedRoute secret h f st).store = st ∧
          (protectedRoute secret h f st).status = 500 ∧
          protectedRoute secret h f st ≠
            { status := 404, message := "Not Authorized", store := st }) := by
  refine ⟨?_, ?_, ?_, ?_⟩
  · intro secret
    rfl
  · intro secret raw
    rfl
  · intro secret s uid hne
    simp [middleware, jwtVerify, hne]
  · intro secret h e hmw f st
    have hroute : protectedRoute secret h f st =
        { status := expressDefaultErrorStatus, message := e, store := st } := by
      simp [protectedRoute, hmw]
    refine ⟨hroute, by rw [hroute], by rw [hroute], by rw [hroute]; rfl, ?_⟩
    rw [hroute]
    intro hEq
    exact absurd (show (500 : Nat) = 404 from congrArg HandlerOut.status hEq)
      (by decide)

/-- Witness for C2: a request with no authorization header, and one with a
token signed under the wrong secret, both make the middleware throw; the
composed protected route answers the framework 500, not 404, and performs
no store call. -/
theorem C2_auth_guard_throws_witness :
    middleware "k1" none = MwOutcome.uncaughtError "jwt must be provided" ∧
    middleware "k1" (some (Token.signed "k2" "u1")) =
      MwOutcome.uncaughtError "invalid signature" ∧
    protectedRoute "k1" none (fun uid st => deletePostHandler (some uid) "p1" none st)
        stW =
      { status := expressDefaultErrorStatus, message := "jwt must be provided",
        store := stW } ∧
    (protectedRoute "k1" none
        (fun uid st => deletePostHandler (some uid) "p1" none st) stW).calls = [] :=
  ⟨C2_auth_guard_throws.1 "k1",
   C2_auth_guard_throws.2.2.1 "k1" "k2" "u1" (by decide),
   (C2_auth_guard_throws.2.2.2 "k1" none "jwt must be provided"
      (C2_auth_guard_throws.1 "k1")
      (fun uid st => deletePostHandler (some uid) "p1" none st) stW).1,
   (C2_auth_guard_throws.2.2.2 "k1" none "jwt must be provided"
      (C2_auth_guard_throws.1 "k1")
      (fun uid st => deletePostHandler (some uid) "p1" none st) stW).2.1⟩
